import Mathlib

/-!
# Verification of the plant-monitor core (gczobel/homeassistant-plant)

Shallow embedding of the threshold evaluator with hysteresis, the per-plant
aggregation, and the global problem binary sensor
(`custom_components/plant/binary_sensor.py`), together with proofs about them.

Numeric sensor readings and thresholds are modelled as rationals (`ℚ`);
a value of `none` stands for an unavailable / unknown / absent reading.
-/

namespace PlantMonitor

/-- Per-metric status, mirroring the source's `STATE_LOW` / `STATE_HIGH` /
`STATE_OK` strings and Python `None` (no reading yet / sensor unavailable). -/
inductive MetricStatus
  | unknown
  | low
  | high
  | ok
  deriving DecidableEq, Repr

/-- Modelled from the spec: the threshold evaluator `_check_threshold` of
`custom_components/plant/__init__.py` is not part of the provided sources
(only its tests are), so it is reconstructed from spec §4.1 and pinned to the
repository's own tests where they fix the behaviour:

* unavailable / unknown current value → status `unknown`
  (spec §4.1, `test_hysteresis_resets_on_sensor_unavailable`);
* `band = (max - min) * 0.05` (spec §4.1);
* enter LOW at `current < min`; once LOW, hold LOW while `current < min + band`
  (spec §4.1, `test_moisture_low_holds_within_hysteresis_band`);
* enter HIGH at `current > max`; once HIGH, hold HIGH while
  `current > max - band` (spec §4.1,
  `test_moisture_high_holds_within_hysteresis_band`);
* unavailable / unknown min or max threshold → the previous status is kept
  unchanged; this branch follows the repository's tests
  (`test_threshold_unavailable_preserves_status`,
  `test_threshold_unknown_preserves_status`), which assert that an
  unavailable threshold entity preserves the metric's current status. -/
def checkThreshold (current minT maxT : Option ℚ) (prev : MetricStatus) :
    MetricStatus :=
  match current with
  | none => MetricStatus.unknown
  | some c =>
    match minT, maxT with
    | some mn, some mx =>
      let band : ℚ := (mx - mn) * (5 / 100)
      if c < mn then MetricStatus.low
      else if prev = MetricStatus.low ∧ c < mn + band then MetricStatus.low
      else if c > mx then MetricStatus.high
      else if prev = MetricStatus.high ∧ c > mx - band then MetricStatus.high
      else MetricStatus.ok
    | _, _ => prev

/-- Holds (`true`) exactly on the two problem statuses `low` and `high`. -/
def isProblemStatus : MetricStatus → Bool
  | MetricStatus.low => true
  | MetricStatus.high => true
  | MetricStatus.ok => false
  | MetricStatus.unknown => false

/-- Modelled from the spec: the inputs one update cycle of the per-plant
aggregator (`Plant.update` in the absent `custom_components/plant/__init__.py`)
gathers for a single metric — current value, min/max thresholds, the previous
status held as hysteresis memory, and the metric's trigger-enabled flag
(spec §4.2 steps 1–2, §6). -/
structure MetricInput where
  current : Option ℚ
  minT : Option ℚ
  maxT : Option ℚ
  prev : MetricStatus
  triggerEnabled : Bool
  deriving DecidableEq, Repr

/-- The status the evaluator produces for one metric in the current cycle. -/
def metricNewStatus (m : MetricInput) : MetricStatus :=
  checkThreshold m.current m.minT m.maxT m.prev

/-- Overall per-plant state (`STATE_OK` / `STATE_PROBLEM` / unknown). -/
inductive PlantState
  | ok
  | problem
  | unknown
  deriving DecidableEq, Repr

/-- Modelled from the spec: a `PlantProblem` record — status (LOW or HIGH),
the current value and the active min/max (spec §3). -/
structure PlantProblem where
  status : MetricStatus
  current : Option ℚ
  minT : Option ℚ
  maxT : Option ℚ
  deriving DecidableEq, Repr

/-- Modelled from the spec: the snapshot one aggregation cycle publishes —
the per-metric statuses stored back as hysteresis memory, the `_problems`
list, and the overall plant state (spec §4.2 steps 2–5). -/
structure PlantSnapshot where
  statuses : List MetricStatus
  problems : List PlantProblem
  overall : PlantState
  deriving DecidableEq, Repr

/-- Modelled from the spec: one update cycle of the per-plant aggregator
(`Plant.update`, absent from the provided sources; spec §4.2 and the test
`test_plant_device_trigger_disabled`):

1. every configured metric is evaluated via `checkThreshold` and the result is
   stored as the metric's new status, trigger-enabled or not;
2. `_problems` collects a `PlantProblem` for every metric whose trigger is
   enabled and whose new status is LOW or HIGH;
3. overall state is `unknown` if every metric status is unknown, `problem`
   if any enabled metric is LOW or HIGH, and `ok` otherwise. -/
def updatePlant (ms : List MetricInput) : PlantSnapshot :=
  let sts := ms.map metricNewStatus
  { statuses := sts
    problems :=
      (ms.filter fun m => m.triggerEnabled && isProblemStatus (metricNewStatus m)).map
        fun m => { status := metricNewStatus m, current := m.current,
                   minT := m.minT, maxT := m.maxT }
    overall :=
      if sts.all fun s => s = MetricStatus.unknown then PlantState.unknown
      else if ms.any fun m => m.triggerEnabled && isProblemStatus (metricNewStatus m) then
        PlantState.problem
      else PlantState.ok }

/-! ## Global problem binary sensor (`custom_components/plant/binary_sensor.py`)

`hass.data[DOMAIN]` is modelled as the list of its values, in iteration order.
A value is either not a dict (e.g. the global sensor itself, stored under
`DATA_GLOBAL_PROBLEM_SENSOR`), a dict without the `ATTR_PLANT` key, or a dict
holding a plant device. -/

/-- The fields of a plant device object that `binary_sensor.py` reads:
`entity_id`, `name`, `_attr_state` (a state string, or Python `None`), and
the `_problems` list (only emptiness and length are used; entries are kept
as display strings). -/
structure PlantDevice where
  entityId : String
  name : String
  attrState : Option String
  problems : List String
  deriving DecidableEq, Repr

/-- One value of the `hass.data[DOMAIN]` mapping. -/
inductive DomainEntry
  | nonDict
  | dictNoPlant
  | dictPlant (p : PlantDevice)
  deriving DecidableEq, Repr

/-- Models `entry_data.get(ATTR_PLANT)` guarded by `isinstance(entry_data, dict)`:
the plant held by a domain-data entry, if any. -/
def entryPlant : DomainEntry → Option PlantDevice
  | DomainEntry.dictPlant p => some p
  | DomainEntry.nonDict => none
  | DomainEntry.dictNoPlant => none

/-- The string constant `homeassistant.const.STATE_PROBLEM`. -/
def STATE_PROBLEM : String := "problem"

/-- The plant devices among the domain-data entries, in iteration order. -/
def plantsOf (data : List DomainEntry) : List PlantDevice :=
  data.filterMap entryPlant

/-- Embeds `PlantMonitorProblemSensor.is_on`: true when some domain-data entry is a
dict whose plant's `_attr_state` equals `STATE_PROBLEM`; non-dict entries and
dicts without a plant are skipped. Computed afresh from the current domain
data on every read (the property takes the data as input; nothing is cached). -/
def isOn (data : List DomainEntry) : Bool :=
  data.any fun e =>
    match entryPlant e with
    | some p => p.attrState = some STATE_PROBLEM
    | none => false

/-- An entity-registry entry as read by the sensor: `device_id` and the
user-assigned override `name` (Python `None` when the user never renamed). -/
structure RegistryEntry where
  deviceId : Option String
  name : Option String
  deriving DecidableEq, Repr

/-- The entity registry: `er.async_get(...).async_get(entity_id)`. -/
def EntityRegistry : Type := String → Option RegistryEntry

/-- Python truthiness fallback `a or b` for an optional string `a`: uses `b` when `a`
is `None` or empty (falsy). -/
def pyOr (a : Option String) (b : String) : String :=
  match a with
  | some v => if v = "" then b else v
  | none => b

/-- Models `registry_entry.name or plant.name if registry_entry else plant.name`:
the display name prefers the user-assigned registry override over the
plant's configured name. -/
def friendlyNameOf (reg : EntityRegistry) (p : PlantDevice) : String :=
  match reg p.entityId with
  | some re => pyOr re.name p.name
  | none => p.name

/-- Models `registry_entry.device_id if registry_entry else None`. -/
def deviceIdOf (reg : EntityRegistry) (p : PlantDevice) : Option String :=
  match reg p.entityId with
  | some re => re.deviceId
  | none => none

/-- One element appended to `plants_with_problems`. -/
structure ProblemEntry where
  entityId : String
  friendlyName : String
  problemCount : Nat
  deviceId : Option String
  deriving DecidableEq, Repr

/-- The dict built by `plants_with_problems.append({...})` for one plant. -/
def mkProblemEntry (reg : EntityRegistry) (p : PlantDevice) : ProblemEntry :=
  { entityId := p.entityId
    friendlyName := friendlyNameOf reg p
    problemCount := p.problems.length
    deviceId := deviceIdOf reg p }

/-- The dict returned by `extra_state_attributes`. -/
structure DetailPayload where
  plantsWithProblems : List ProblemEntry
  totalProblems : Nat
  totalPlants : Nat
  deriving DecidableEq, Repr

/-- One iteration of the `extra_state_attributes` loop: skip entries that are
not dicts with a plant, count every plant into `total_plants`, and for plants
with a non-empty `_problems` list append a `ProblemEntry` and add its length
to `total_problems`. -/
def extraStep (reg : EntityRegistry) (acc : DetailPayload) (e : DomainEntry) :
    DetailPayload :=
  match entryPlant e with
  | none => acc
  | some p =>
    let acc1 : DetailPayload :=
      { plantsWithProblems := acc.plantsWithProblems
        totalProblems := acc.totalProblems
        totalPlants := acc.totalPlants + 1 }
    if p.problems.isEmpty then acc1
    else
      { plantsWithProblems := acc1.plantsWithProblems ++ [mkProblemEntry reg p]
        totalProblems := acc1.totalProblems + p.problems.length
        totalPlants := acc1.totalPlants }

/-- Embeds `PlantMonitorProblemSensor.extra_state_attributes`, as the fold of
`extraStep` over the domain data starting from empty accumulators. -/
def extraStateAttributes (reg : EntityRegistry) (data : List DomainEntry) :
    DetailPayload :=
  data.foldl (extraStep reg) { plantsWithProblems := [], totalProblems := 0, totalPlants := 0 }

/-- The plants with at least one problem, in iteration order. -/
def problemPlants (data : List DomainEntry) : List PlantDevice :=
  (plantsOf data).filter fun p => !p.problems.isEmpty

/-! ## Dynamic membership tracking (`_refresh_tracked_plants`) -/

/-- Models the set comprehension over `entry_data[ATTR_PLANT].entity_id`: the set of entity ids of
all current plant entries. -/
def currentEntityIds (data : List DomainEntry) : Finset String :=
  ((plantsOf data).map PlantDevice.entityId).toFinset

/-- The mutable state of the global sensor relevant to membership tracking:
`_tracked_entity_ids`, `_remove_listener` (a subscription handle, `none` when
no listener is installed), and a counter supplying the identity of the next
handle `async_track_state_change_event` would return — distinct from every
previously issued handle, so handle equality models reference equality. -/
structure SensorState where
  trackedEntityIds : Finset String
  removeListener : Option Nat
  nextHandle : Nat
  deriving DecidableEq

/-- Externally visible subscription side effects of one refresh call:
tearing down an existing listener (`self._remove_listener()`) and installing
a new one (`async_track_state_change_event` over a set of entity ids). -/
inductive SubAction
  | teardown (handle : Nat)
  | install (handle : Nat) (ids : Finset String)
  deriving DecidableEq

/-- Embeds `PlantMonitorProblemSensor._refresh_tracked_plants`: recompute the set of
plant entity ids; if unchanged, return immediately (no state change, no
subscription action); otherwise tear down the old listener if one exists,
replace the tracked set, and install one new listener over all current ids
when the set is non-empty, else leave `removeListener` as `none`. -/
def refreshTrackedPlants (data : List DomainEntry) (s : SensorState) :
    SensorState × List SubAction :=
  let currentIds := currentEntityIds data
  if currentIds = s.trackedEntityIds then (s, [])
  else
    let tearActs : List SubAction :=
      match s.removeListener with
      | some h => [SubAction.teardown h]
      | none => []
    if currentIds = ∅ then
      ({ trackedEntityIds := currentIds, removeListener := none,
         nextHandle := s.nextHandle }, tearActs)
    else
      ({ trackedEntityIds := currentIds, removeListener := some s.nextHandle,
         nextHandle := s.nextHandle + 1 },
       tearActs ++ [SubAction.install s.nextHandle currentIds])

/-! ## Concrete scenario data -/

/-- A plant with one problem (scenario D, first plant). -/
def plantA : PlantDevice :=
  { entityId := "plant.tomato", name := "Tomato", attrState := some "problem",
    problems := ["moisture low"] }

/-- A plant with two problems (scenario D, second plant). -/
def plantB : PlantDevice :=
  { entityId := "plant.basil", name := "Basil", attrState := some "problem",
    problems := ["moisture low", "temperature high"] }

/-- Domain data for scenario D: the global sensor's own (non-dict) slot plus
two plant entries. -/
def dataD : List DomainEntry :=
  [DomainEntry.nonDict, DomainEntry.dictPlant plantA, DomainEntry.dictPlant plantB]

/-- Registry entry for `plant.tomato`, renamed by the user. -/
def regEntryA : RegistryEntry :=
  { deviceId := some "device-a", name := some "Renamed Tomato" }

/-- An entity registry knowing only `plant.tomato`. -/
def regD : EntityRegistry :=
  fun id => if id = "plant.tomato" then some regEntryA else none

/-- Domain data with a single plant entry. -/
def dataW : List DomainEntry := [DomainEntry.dictPlant plantA]

/-- Sensor state already tracking exactly the plants of `dataW`, with an
installed listener. -/
def sW : SensorState :=
  { trackedEntityIds := currentEntityIds dataW, removeListener := some 0,
    nextHandle := 1 }

/-- Sensor state tracking nothing, with a stale listener installed. -/
def sE : SensorState :=
  { trackedEntityIds := ∅, removeListener := some 5, nextHandle := 7 }

/-- A moisture-like metric reading below its minimum, trigger disabled. -/
def metricDisabledLow : MetricInput :=
  { current := some 5, minT := some 20, maxT := some 60,
    prev := MetricStatus.unknown, triggerEnabled := false }

/-- A temperature-like metric reading inside its range, trigger enabled. -/
def metricEnabledOk : MetricInput :=
  { current := some 25, minT := some 10, maxT := some 40,
    prev := MetricStatus.unknown, triggerEnabled := true }

/-- One plant's metric inputs: a disabled LOW metric plus an enabled OK one. -/
def msW : List MetricInput := [metricDisabledLow, metricEnabledOk]

/-! ## Theorems -/

/-- C1, counterexample: with min=20, max=60 (band = 2), a current value of 100
satisfies the claim's premise `previous = LOW ∧ current ≥ min + band`, yet the
evaluator returns HIGH (the value is above max), not OK as the claim states. -/
theorem checkThreshold_low_recovery_counterexample :
    (20 : ℚ) + ((60 : ℚ) - 20) * (5 / 100) ≤ 100 ∧
    checkThreshold (some 100) (some 20) (some 60) MetricStatus.low = MetricStatus.high ∧
    checkThreshold (some 100) (some 20) (some 60) MetricStatus.low ≠ MetricStatus.ok := by
  have h : checkThreshold (some 100) (some 20) (some 60) MetricStatus.low = MetricStatus.high := by
    norm_num [checkThreshold]
  exact ⟨by norm_num, h, by rw [h]; decide⟩

/-- C1, amended: for defined min and max with band = (max − min) · 0.05:
a LOW state is held while min ≤ current < min + band; it clears to OK once
current ≥ min + band *provided current ≤ max*; symmetrically a HIGH state is
held while max − band < current ≤ max and clears to OK once
current ≤ max − band *provided current ≥ min*. -/
theorem checkThreshold_hysteresis_band (c mn mx : ℚ) :
    (mn ≤ c → c < mn + (mx - mn) * (5 / 100) →
      checkThreshold (some c) (some mn) (some mx) MetricStatus.low = MetricStatus.low)
  ∧ (mn + (mx - mn) * (5 / 100) ≤ c → c ≤ mx →
      checkThreshold (some c) (some mn) (some mx) MetricStatus.low = MetricStatus.ok)
  ∧ (mx - (mx - mn) * (5 / 100) < c → c ≤ mx →
      checkThreshold (some c) (some mn) (some mx) MetricStatus.high = MetricStatus.high)
  ∧ (mn ≤ c → c ≤ mx - (mx - mn) * (5 / 100) →
      checkThreshold (some c) (some mn) (some mx) MetricStatus.high = MetricStatus.ok) := by
  refine ⟨fun h1 h2 => ?_, fun h1 h2 => ?_, fun h1 h2 => ?_, fun h1 h2 => ?_⟩ <;>
    simp only [checkThreshold]
  · rw [if_neg (not_lt.mpr h1), if_pos ⟨trivial, h2⟩]
  · rw [if_neg (by intro hc; linarith), if_neg (by rintro ⟨-, hlt⟩; linarith),
      if_neg (not_lt.mpr h2), if_neg (by rintro ⟨hcon, -⟩; cases hcon)]
  · rw [if_neg (by intro hc; linarith), if_neg (by rintro ⟨hcon, -⟩; cases hcon),
      if_neg (not_lt.mpr h2), if_pos ⟨trivial, h1⟩]
  · rw [if_neg (not_lt.mpr h1), if_neg (by rintro ⟨hcon, -⟩; cases hcon),
      if_neg (by intro hc; linarith), if_neg (by rintro ⟨-, hgt⟩; linarith)]

/-- C1, witness: the amended theorem at the moisture scenario
(min=20, max=60, band=2): 20.5 holds LOW, 23 clears to OK, 59 holds HIGH,
57 clears to OK. -/
theorem checkThreshold_hysteresis_band_witness :
    checkThreshold (some (41 / 2)) (some 20) (some 60) MetricStatus.low = MetricStatus.low
  ∧ checkThreshold (some 23) (some 20) (some 60) MetricStatus.low = MetricStatus.ok
  ∧ checkThreshold (some 59) (some 20) (some 60) MetricStatus.high = MetricStatus.high
  ∧ checkThreshold (some 57) (some 20) (some 60) MetricStatus.high = MetricStatus.ok :=
  ⟨(checkThreshold_hysteresis_band (41 / 2) 20 60).1 (by norm_num) (by norm_num),
   (checkThreshold_hysteresis_band 23 20 60).2.1 (by norm_num) (by norm_num),
   (checkThreshold_hysteresis_band 59 20 60).2.2.1 (by norm_num) (by norm_num),
   (checkThreshold_hysteresis_band 57 20 60).2.2.2 (by norm_num) (by norm_num)⟩

/-- C2: on a fresh read (previous status unknown, e.g. right after the sensor
was unavailable), no hysteresis applies: every current value with
min ≤ current ≤ max — including values inside the band — evaluates to OK. -/
theorem checkThreshold_fresh_ok (c mn mx : ℚ) (h1 : mn ≤ c) (h2 : c ≤ mx) :
    checkThreshold (some c) (some mn) (some mx) MetricStatus.unknown = MetricStatus.ok := by
  simp only [checkThreshold]
  rw [if_neg (not_lt.mpr h1), if_neg (by rintro ⟨hcon, -⟩; cases hcon),
    if_neg (not_lt.mpr h2), if_neg (by rintro ⟨hcon, -⟩; cases hcon)]

/-- C2, witness: moisture 21 with min=20, max=60 — inside the hysteresis band
— is OK on a fresh read (scenario E). -/
theorem checkThreshold_fresh_ok_witness :
    checkThreshold (some 21) (some 20) (some 60) MetricStatus.unknown = MetricStatus.ok :=
  checkThreshold_fresh_ok 21 20 60 (by norm_num) (by norm_num)

/-- C3, counterexample: with the min threshold unavailable and previous status
OK, the evaluator keeps OK — it does not return UNKNOWN as the claim states
(matching `test_threshold_unavailable_preserves_status`, where moisture stays
OK after `min_moisture` becomes unavailable). -/
theorem checkThreshold_missing_threshold_counterexample :
    checkThreshold (some 40) none (some 60) MetricStatus.ok = MetricStatus.ok ∧
    checkThreshold (some 40) none (some 60) MetricStatus.ok ≠ MetricStatus.unknown :=
  ⟨rfl, by decide⟩

/-- C3, amended: when the min or max threshold input is unavailable/unknown,
the evaluator returns the previous status unchanged (no exception, modelled by
totality); only an unavailable/unknown current value forces UNKNOWN. -/
theorem checkThreshold_missing_threshold_preserves (q : ℚ) (mn mx : Option ℚ)
    (prev : MetricStatus) (h : mn = none ∨ mx = none) :
    checkThreshold (some q) mn mx prev = prev ∧
    checkThreshold none mn mx prev = MetricStatus.unknown := by
  refine ⟨?_, rfl⟩
  rcases h with h | h <;> subst h
  · cases mx <;> rfl
  · cases mn <;> rfl

/-- C3, witness: the amended theorem at current 40, min unavailable, max 60,
previous status OK. -/
theorem checkThreshold_missing_threshold_preserves_witness :
    checkThreshold (some 40) none (some 60) MetricStatus.ok = MetricStatus.ok ∧
    checkThreshold (none : Option ℚ) none (some 60) MetricStatus.ok = MetricStatus.unknown :=
  checkThreshold_missing_threshold_preserves 40 none (some 60) MetricStatus.ok (Or.inl rfl)

/-- C4: if some metric's trigger is disabled while its evaluated status is LOW
or HIGH, and every enabled metric evaluates to OK or unknown, then the plant's
overall state is OK — the disabled metric never causes PROBLEM — while all
per-metric statuses, the disabled one's LOW/HIGH included, are still computed
and stored in the snapshot. -/
theorem updatePlant_disabled_trigger (ms : List MetricInput)
    (hen : ∀ m ∈ ms, m.triggerEnabled = true →
      metricNewStatus m = MetricStatus.ok ∨ metricNewStatus m = MetricStatus.unknown)
    (hdis : ∃ m ∈ ms, m.triggerEnabled = false ∧ isProblemStatus (metricNewStatus m) = true) :
    (updatePlant ms).overall = PlantState.ok
  ∧ (updatePlant ms).statuses = ms.map metricNewStatus
  ∧ ∃ s ∈ (updatePlant ms).statuses, isProblemStatus s = true := by
  obtain ⟨m, hm, hmdis, hmprob⟩ := hdis
  have hne : metricNewStatus m ≠ MetricStatus.unknown := by
    intro h
    rw [h] at hmprob
    cases hmprob
  refine ⟨?_, rfl, metricNewStatus m, List.mem_map_of_mem metricNewStatus hm, hmprob⟩
  have hA : ¬((ms.map metricNewStatus).all fun s => s = MetricStatus.unknown) = true := by
    simp only [List.all_eq_true, decide_eq_true_eq, not_forall]
    exact ⟨metricNewStatus m, List.mem_map_of_mem metricNewStatus hm, hne⟩
  have hB : ¬(ms.any fun m => m.triggerEnabled && isProblemStatus (metricNewStatus m)) = true := by
    simp only [List.any_eq_true, Bool.and_eq_true, not_exists]
    rintro m' ⟨hm', hen', hprob'⟩
    rcases hen m' hm' hen' with h | h <;> rw [h] at hprob' <;> cases hprob'
  simp only [updatePlant]
  rw [if_neg hA, if_neg hB]

/-- C4, witness: a disabled moisture metric at 5 (below min 20, so LOW) plus
an enabled temperature metric at 25 (inside 10–40, so OK): the overall state
is OK while the stored statuses still contain the LOW. -/
theorem updatePlant_disabled_trigger_witness :
    (updatePlant msW).overall = PlantState.ok
  ∧ (updatePlant msW).statuses = msW.map metricNewStatus
  ∧ ∃ s ∈ (updatePlant msW).statuses, isProblemStatus s = true := by
  have hlow : metricNewStatus metricDisabledLow = MetricStatus.low := by
    norm_num [metricNewStatus, metricDisabledLow, checkThreshold]
  have hok : metricNewStatus metricEnabledOk = MetricStatus.ok := by
    norm_num [metricNewStatus, metricEnabledOk, checkThreshold]
  apply updatePlant_disabled_trigger
  · intro m hm hmen
    simp only [msW, List.mem_cons, List.not_mem_nil, or_false] at hm
    rcases hm with rfl | rfl
    · simp [metricDisabledLow] at hmen
    · exact Or.inl hok
  · exact ⟨metricDisabledLow, by simp [msW], rfl, by rw [hlow]; rfl⟩

/-- C5: `is_on` is true exactly when some tracked plant's snapshot state is
PROBLEM. The model takes the current domain data as its argument, so the
answer is recomputed from the plants' current snapshots on every read; no
cached value enters the computation. -/
theorem isOn_iff_some_plant_problem (data : List DomainEntry) :
    isOn data = true ↔ ∃ p ∈ plantsOf data, p.attrState = some STATE_PROBLEM := by
  simp only [isOn, List.any_eq_true, plantsOf, List.mem_filterMap]
  constructor
  · rintro ⟨e, he, hval⟩
    cases e with
    | nonDict => cases hval
    | dictNoPlant => cases hval
    | dictPlant p =>
      exact ⟨p, ⟨DomainEntry.dictPlant p, he, rfl⟩, by simpa [entryPlant] using hval⟩
  · rintro ⟨p, ⟨e, he, hpe⟩, hstate⟩
    refine ⟨e, he, ?_⟩
    cases e with
    | nonDict => cases hpe
    | dictNoPlant => cases hpe
    | dictPlant q =>
      obtain rfl : q = p := by simpa [entryPlant] using hpe
      simpa [entryPlant] using hstate

/-- C6: when the recomputed membership equals the tracked set — in particular
on any second call right after a refresh — `_refresh_tracked_plants` is a
no-op: the state (tracked set and installed listener handle) is returned
unchanged and no subscription is torn down or created. -/
theorem refreshTrackedPlants_noop_when_unchanged (data : List DomainEntry)
    (s : SensorState) (h : currentEntityIds data = s.trackedEntityIds) :
    refreshTrackedPlants data s = (s, [])
  ∧ (refreshTrackedPlants data s).1.removeListener = s.removeListener := by
  have hs : refreshTrackedPlants data s = (s, []) := by
    simp only [refreshTrackedPlants]
    rw [if_pos h]
  exact ⟨hs, by rw [hs]⟩

/-- C6, witness: a second refresh on a state already tracking the single
plant of `dataW` leaves the state, its listener handle included, unchanged. -/
theorem refreshTrackedPlants_noop_witness :
    refreshTrackedPlants dataW sW = (sW, [])
  ∧ (refreshTrackedPlants dataW sW).1.removeListener = sW.removeListener :=
  refreshTrackedPlants_noop_when_unchanged dataW sW rfl

/-- C7: when the recomputed membership differs from the tracked set, the
refresh replaces the tracked set with the new one, emits a teardown of the
previously installed subscription exactly when one existed, and — when the
new set is non-empty — installs exactly one new subscription covering all
current plant entity ids; when the new set is empty, the listener handle
is left as `none` and nothing is installed. -/
theorem refreshTrackedPlants_changed (data : List DomainEntry) (s : SensorState)
    (h : currentEntityIds data ≠ s.trackedEntityIds) :
    (refreshTrackedPlants data s).1.trackedEntityIds = currentEntityIds data
  ∧ (refreshTrackedPlants data s).2 =
      (match s.removeListener with
       | some h0 => [SubAction.teardown h0]
       | none => []) ++
      (if currentEntityIds data = ∅ then []
       else [SubAction.install s.nextHandle (currentEntityIds data)])
  ∧ (refreshTrackedPlants data s).1.removeListener =
      (if currentEntityIds data = ∅ then none else some s.nextHandle) := by
  simp only [refreshTrackedPlants]
  rw [if_neg h]
  by_cases he : currentEntityIds data = ∅ <;> simp [he]

/-- C7, witness: refreshing from a state tracking nothing (with a stale
listener handle 5) against data holding one plant tears the old listener
down and installs one subscription over the plant's entity id. -/
theorem refreshTrackedPlants_changed_witness :
    (refreshTrackedPlants dataW sE).1.trackedEntityIds = currentEntityIds dataW
  ∧ (refreshTrackedPlants dataW sE).2 =
      (match sE.removeListener with
       | some h0 => [SubAction.teardown h0]
       | none => []) ++
      (if currentEntityIds dataW = ∅ then []
       else [SubAction.install sE.nextHandle (currentEntityIds dataW)])
  ∧ (refreshTrackedPlants dataW sE).1.removeListener =
      (if currentEntityIds dataW = ∅ then none else some sE.nextHandle) :=
  refreshTrackedPlants_changed dataW sE (by
    simp [currentEntityIds, plantsOf, dataW, plantA, entryPlant, sE])

/-- Loop invariant of the `extra_state_attributes` fold: starting from any
accumulator, the loop appends one entry per plant with problems (in order),
adds their problem counts, and counts every plant entry. -/
theorem extraStep_foldl (reg : EntityRegistry) (data : List DomainEntry)
    (acc : DetailPayload) :
    data.foldl (extraStep reg) acc =
      { plantsWithProblems :=
          acc.plantsWithProblems ++ (problemPlants data).map (mkProblemEntry reg)
        totalProblems :=
          acc.totalProblems + ((problemPlants data).map fun p => p.problems.length).sum
        totalPlants := acc.totalPlants + (plantsOf data).length } := by
  induction data generalizing acc with
  | nil => simp [problemPlants, plantsOf]
  | cons e rest ih =>
    cases e with
    | nonDict =>
      rw [List.foldl_cons, ih]
      simp [extraStep, entryPlant, problemPlants, plantsOf]
    | dictNoPlant =>
      rw [List.foldl_cons, ih]
      simp [extraStep, entryPlant, problemPlants, plantsOf]
    | dictPlant p =>
      have hpl : plantsOf (DomainEntry.dictPlant p :: rest) = p :: plantsOf rest := by
        simp [plantsOf, List.filterMap_cons, entryPlant]
      by_cases hp : p.problems.isEmpty = true
      · have hstep : extraStep reg acc (DomainEntry.dictPlant p) =
            { plantsWithProblems := acc.plantsWithProblems
              totalProblems := acc.totalProblems
              totalPlants := acc.totalPlants + 1 } := by
          simp [extraStep, entryPlant, hp]
        have hpp : problemPlants (DomainEntry.dictPlant p :: rest) = problemPlants rest := by
          simp [problemPlants, hpl, List.filter_cons, hp]
        rw [List.foldl_cons, hstep, ih, hpp, hpl]
        simp only [DetailPayload.mk.injEq, List.length_cons, true_and]
        omega
      · have hp' : p.problems.isEmpty = false := by
          cases h : p.problems.isEmpty
          · rfl
          · exact absurd h hp
        have hstep : extraStep reg acc (DomainEntry.dictPlant p) =
            { plantsWithProblems := acc.plantsWithProblems ++ [mkProblemEntry reg p]
              totalProblems := acc.totalProblems + p.problems.length
              totalPlants := acc.totalPlants + 1 } := by
          simp [extraStep, entryPlant, hp']
        have hpp : problemPlants (DomainEntry.dictPlant p :: rest) = p :: problemPlants rest := by
          simp [problemPlants, hpl, List.filter_cons, hp']
        rw [List.foldl_cons, hstep, ih, hpp, hpl]
        simp only [DetailPayload.mk.injEq, List.length_cons, List.map_cons, List.sum_cons]
        refine ⟨by simp, by omega, by omega⟩

/-- C8: the detail payload lists exactly the plants with a non-empty problem
list, in order, each entry carrying the plant's entity id, a display name
preferring a non-empty user-assigned registry override over the configured
name, the problem count, and the owning device id from the registry;
`total_problems` is the sum of the listed problem counts and `total_plants`
counts every tracked plant, healthy or not. -/
theorem extraStateAttributes_detail (reg : EntityRegistry) (data : List DomainEntry)
    (p : PlantDevice) (re : RegistryEntry) (n : String)
    (hre : reg p.entityId = some re) (hn : re.name = some n) (hne : n ≠ "") :
    (extraStateAttributes reg data).plantsWithProblems
      = (problemPlants data).map (mkProblemEntry reg)
  ∧ (extraStateAttributes reg data).totalProblems =
      ((extraStateAttributes reg data).plantsWithProblems.map ProblemEntry.problemCount).sum
  ∧ (extraStateAttributes reg data).totalPlants = (plantsOf data).length
  ∧ (mkProblemEntry reg p).entityId = p.entityId
  ∧ (mkProblemEntry reg p).friendlyName = n
  ∧ (mkProblemEntry reg p).problemCount = p.problems.length
  ∧ (mkProblemEntry reg p).deviceId = re.deviceId := by
  have hfold := extraStep_foldl reg data
    { plantsWithProblems := [], totalProblems := 0, totalPlants := 0 }
  rw [extraStateAttributes, hfold]
  refine ⟨by simp, ?_, by simp, rfl, ?_, rfl, ?_⟩
  · simp only [List.nil_append, Nat.zero_add, List.map_map]
    rfl
  · simp [mkProblemEntry, friendlyNameOf, hre, hn, pyOr, hne]
  · simp [mkProblemEntry, deviceIdOf, hre]

/-- C8, witness: scenario D — two plants with 1 and 2 problems tracked next
to the sensor's own non-dict slot give `total_problems = 3`,
`total_plants = 2` and two listed entries; the first plant's entry shows the
user-assigned registry name. -/
theorem extraStateAttributes_detail_witness :
    (extraStateAttributes regD dataD).totalProblems = 3
  ∧ (extraStateAttributes regD dataD).totalPlants = 2
  ∧ (extraStateAttributes regD dataD).plantsWithProblems.length = 2
  ∧ (mkProblemEntry regD plantA).friendlyName = "Renamed Tomato" := by
  have h := extraStateAttributes_detail regD dataD plantA regEntryA "Renamed Tomato"
    rfl rfl (by decide)
  exact ⟨by decide, by decide, by decide, h.2.2.2.2.1⟩

/-- C9: in every detail payload, each listed entry has a problem count of at
least one, `total_problems` equals the sum of the listed problem counts, and
`total_plants` is at least the number of listed entries. -/
theorem extraStateAttributes_invariants (reg : EntityRegistry) (data : List DomainEntry) :
    ((extraStateAttributes reg data).plantsWithProblems.all fun e => 1 ≤ e.problemCount) = true
  ∧ (extraStateAttributes reg data).totalProblems =
      ((extraStateAttributes reg data).plantsWithProblems.map ProblemEntry.problemCount).sum
  ∧ (extraStateAttributes reg data).plantsWithProblems.length
      ≤ (extraStateAttributes reg data).totalPlants := by
  have hfold := extraStep_foldl reg data
    { plantsWithProblems := [], totalProblems := 0, totalPlants := 0 }
  rw [extraStateAttributes, hfold]
  refine ⟨?_, ?_, ?_⟩
  · simp only [List.all_eq_true, List.nil_append, decide_eq_true_eq, List.mem_map]
    rintro e ⟨p, hp, rfl⟩
    have hne : ¬p.problems.isEmpty := by
      simpa [problemPlants] using (List.mem_filter.mp hp).2
    have : p.problems ≠ [] := by
      intro h
      exact hne (by simp [h])
    have hlen : 0 < p.problems.length := List.length_pos.mpr this
    simpa [mkProblemEntry] using hlen
  · simp only [List.nil_append, Nat.zero_add, List.map_map]
    rfl
  · simp only [List.nil_append, List.length_map, Nat.zero_add, problemPlants]
    exact List.length_filter_le _ _

/-- C10: `is_on`, `extra_state_attributes` and the membership recomputation
skip every domain-data entry that is not a dict holding a plant (the global
sensor's own slot included), and on data with no plant entries `is_on` is
false and the payload is empty: no listed plants, zero totals, no entity ids. -/
theorem sensor_reads_skip_non_plant_entries (reg : EntityRegistry)
    (e : DomainEntry) (d1 d2 : List DomainEntry)
    (he : entryPlant e = none) (h1 : plantsOf d1 = []) :
    isOn (e :: d2) = isOn d2
  ∧ extraStateAttributes reg (e :: d2) = extraStateAttributes reg d2
  ∧ currentEntityIds (e :: d2) = currentEntityIds d2
  ∧ isOn d1 = false
  ∧ extraStateAttributes reg d1 =
      { plantsWithProblems := [], totalProblems := 0, totalPlants := 0 }
  ∧ currentEntityIds d1 = ∅ := by
  have hall : ∀ a ∈ d1, entryPlant a = none := List.filterMap_eq_nil_iff.mp h1
  refine ⟨?_, ?_, ?_, ?_, ?_, ?_⟩
  · cases e with
    | nonDict => simp [isOn, entryPlant]
    | dictNoPlant => simp [isOn, entryPlant]
    | dictPlant p => cases he
  · rw [extraStateAttributes, extraStateAttributes, List.foldl_cons, extraStep, he]
  · rw [currentEntityIds, currentEntityIds, plantsOf, plantsOf, List.filterMap_cons, he]
  · rw [isOn, List.any_eq_false]
    intro a ha
    rw [hall a ha]
    simp
  · rw [extraStateAttributes, extraStep_foldl]
    simp [problemPlants, h1]
  · rw [currentEntityIds, h1]
    simp

/-- C10, witness: prepending the sensor's own non-dict slot leaves all three
reads unchanged, and data holding only a plant-less dict yields `is_on` false
and an all-empty payload. -/
theorem sensor_reads_skip_non_plant_entries_witness :
    isOn (DomainEntry.nonDict :: dataD) = isOn dataD
  ∧ extraStateAttributes regD (DomainEntry.nonDict :: dataD) = extraStateAttributes regD dataD
  ∧ currentEntityIds (DomainEntry.nonDict :: dataD) = currentEntityIds dataD
  ∧ isOn [DomainEntry.dictNoPlant] = false
  ∧ extraStateAttributes regD [DomainEntry.dictNoPlant] =
      { plantsWithProblems := [], totalProblems := 0, totalPlants := 0 }
  ∧ currentEntityIds [DomainEntry.dictNoPlant] = ∅ :=
  sensor_reads_skip_non_plant_entries regD DomainEntry.nonDict
    [DomainEntry.dictNoPlant] dataD rfl rfl

end PlantMonitor
